import Mathlib

/-!
Verification of the hart core of the riscv64-emu-rust simulator.

This file shallowly embeds the code of `src/cpu_core.rs` and
`src/inst_rv64z.rs` (the fetch/execute loop, synchronous trap delivery,
interrupt delivery, the privileged and Zicsr instruction handlers, the
LR/SC reservation interface and the `tohost` poll) and proves or refutes
the specification's claims about them.

Machine integers (`u64` in the source) are embedded as `Nat` with explicit
truncation `mask64` wherever the source performs arithmetic that can wrap.
Components of the repository that the claims need but whose sources are not
available (`traptype.rs`, `csr_regs.rs`, `csr_regs_define.rs`, `gpr.rs`,
`inst_base.rs`, `inst_rv64a.rs`, `bus.rs`) are modelled from the
specification; each such definition carries a doc comment saying so.
-/

namespace RV64Core

/-- Truncation to an unsigned 64-bit value (the Rust `u64` domain). -/
def mask64 (x : Nat) : Nat := x % 2 ^ 64

/-- Bitwise complement on `u64` (Rust `!x`); faithful for `x < 2^64`. -/
def not64 (x : Nat) : Nat := (2 ^ 64 - 1) ^^^ x

/-- Write bit `i` of `x` to `b` (the primitive under the `csr_regs_define.rs`
bitfield setters). -/
def setBitTo (x i : Nat) (b : Bool) : Nat :=
  if b then x ||| (1 <<< i) else x &&& not64 (1 <<< i)

/-- `PrivilegeLevels` of `inst_base.rs`: enum with discriminants
User = 0, Supervisor = 1, Machine = 3, ordered by discriminant. -/
inductive PrivilegeLevels where
  | User
  | Supervisor
  | Machine
deriving DecidableEq

def PrivilegeLevels.toNat : PrivilegeLevels → Nat
  | .User => 0
  | .Supervisor => 1
  | .Machine => 3

/-- The derived `PartialOrd` comparison `<=` on the Rust enum. -/
def PrivilegeLevels.le (a b : PrivilegeLevels) : Bool :=
  decide (a.toNat ≤ b.toNat)

/-- The derived `PartialOrd` comparison `<` on the Rust enum. -/
def PrivilegeLevels.lt (a b : PrivilegeLevels) : Bool :=
  decide (a.toNat < b.toNat)

/-- `CpuState` of `cpu_core.rs`. -/
inductive CpuState where
  | Running
  | Stop
  | Abort
deriving DecidableEq

/-- Modelled from the spec: `TrapType` (`traptype.rs` is not under `src/`).
The taxonomy of recoverable failures is exactly the RISC-V
exception/interrupt set; each exception carries a `tval`. -/
inductive TrapType where
  | InstructionAddressMisaligned (tval : Nat)
  | InstructionAccessFault (tval : Nat)
  | IllegalInstruction (tval : Nat)
  | Breakpoint (tval : Nat)
  | LoadAddressMisaligned (tval : Nat)
  | LoadAccessFault (tval : Nat)
  | StoreAddressMisaligned (tval : Nat)
  | StoreAccessFault (tval : Nat)
  | EnvironmentCallFromUMode
  | EnvironmentCallFromSMode
  | EnvironmentCallFromMMode
  | InstructionPageFault (tval : Nat)
  | LoadPageFault (tval : Nat)
  | StorePageFault (tval : Nat)
  | SupervisorSoftInterrupt
  | MachineSoftInterrupt
  | SupervisorTimerInterrupt
  | MachineTimerInterrupt
  | SupervisorExternalInterrupt
  | MachineExternalInterrupt
deriving DecidableEq

namespace TrapType

/-- Modelled from the spec: interrupt discrimination (`mcause`/`scause`
MSB = 1 iff interrupt). -/
def is_interrupt : TrapType → Bool
  | SupervisorSoftInterrupt | MachineSoftInterrupt
  | SupervisorTimerInterrupt | MachineTimerInterrupt
  | SupervisorExternalInterrupt | MachineExternalInterrupt => true
  | _ => false

/-- Modelled from the spec: the architectural cause number (exception
number for synchronous traps, interrupt number for interrupts). -/
def get_exception_num : TrapType → Nat
  | InstructionAddressMisaligned _ => 0
  | InstructionAccessFault _ => 1
  | IllegalInstruction _ => 2
  | Breakpoint _ => 3
  | LoadAddressMisaligned _ => 4
  | LoadAccessFault _ => 5
  | StoreAddressMisaligned _ => 6
  | StoreAccessFault _ => 7
  | EnvironmentCallFromUMode => 8
  | EnvironmentCallFromSMode => 9
  | EnvironmentCallFromMMode => 11
  | InstructionPageFault _ => 12
  | LoadPageFault _ => 13
  | StorePageFault _ => 15
  | SupervisorSoftInterrupt => 1
  | MachineSoftInterrupt => 3
  | SupervisorTimerInterrupt => 5
  | MachineTimerInterrupt => 7
  | SupervisorExternalInterrupt => 9
  | MachineExternalInterrupt => 11

/-- Modelled from the spec: the `mcause`/`scause` encoding,
`cause | (interrupt ? MSB : 0)`. -/
def idx (t : TrapType) : Nat :=
  if t.is_interrupt then 2 ^ 63 + t.get_exception_num else t.get_exception_num

/-- Modelled from the spec: the trap value carried by the trap (the faulting
address or instruction bits; 0 for environment calls and interrupts). -/
def get_tval : TrapType → Nat
  | InstructionAddressMisaligned v => v
  | InstructionAccessFault v => v
  | IllegalInstruction v => v
  | Breakpoint v => v
  | LoadAddressMisaligned v => v
  | LoadAccessFault v => v
  | StoreAddressMisaligned v => v
  | StoreAccessFault v => v
  | InstructionPageFault v => v
  | LoadPageFault v => v
  | StorePageFault v => v
  | _ => 0

end TrapType

/-! CSR addresses (the standard numbers used by `inst_base.rs`). -/

def CSR_MSTATUS : Nat := 0x300
def CSR_MEDELEG : Nat := 0x302
def CSR_MIDELEG : Nat := 0x303
def CSR_MIE : Nat := 0x304
def CSR_MTVEC : Nat := 0x305
def CSR_MEPC : Nat := 0x341
def CSR_MCAUSE : Nat := 0x342
def CSR_MTVAL : Nat := 0x343
def CSR_MIP : Nat := 0x344
def CSR_STVEC : Nat := 0x105
def CSR_SEPC : Nat := 0x141
def CSR_SCAUSE : Nat := 0x142
def CSR_STVAL : Nat := 0x143
def CSR_MSCRATCH : Nat := 0x340
def CSR_MCYCLE : Nat := 0xB00
def CSR_MINSTRET : Nat := 0xB02

/-- mstatus field masks (the standard RISC-V layout used by `inst_base.rs`). -/
def MSTATUS_MIE : Nat := 0x8
def MSTATUS_MPIE : Nat := 0x80
def MSTATUS_MPP : Nat := 0x1800
def MASK_ALL : Nat := 2 ^ 64 - 1

/-- The riscv `get_field` macro of `inst_base.rs`:
`(reg & mask) / (mask & ~(mask << 1))`. -/
def get_field (reg mask : Nat) : Nat :=
  (reg &&& mask) / (mask &&& not64 (mask <<< 1))

/-- The riscv `set_field` macro of `inst_base.rs`:
`(reg & ~mask) | ((val * (mask & ~(mask << 1))) & mask)`. -/
def set_field (reg mask val : Nat) : Nat :=
  (reg &&& not64 mask) ||| ((val * (mask &&& not64 (mask <<< 1))) &&& mask)

/-! The `mstatus` bitfield accessors of `csr_regs_define.rs`
(modelled from the spec with the standard RISC-V `mstatus` layout:
SIE bit 1, MIE bit 3, SPIE bit 5, MPIE bit 7, SPP bit 8, MPP bits 12:11). -/

namespace Mstatus

def sie (x : Nat) : Bool := x.testBit 1
def mie (x : Nat) : Bool := x.testBit 3
def spie (x : Nat) : Bool := x.testBit 5
def mpie (x : Nat) : Bool := x.testBit 7
def spp (x : Nat) : Bool := x.testBit 8
def mpp (x : Nat) : Nat :=
  (if x.testBit 11 then 1 else 0) + 2 * (if x.testBit 12 then 1 else 0)

def set_sie (x : Nat) (b : Bool) : Nat := setBitTo x 1 b
def set_mie (x : Nat) (b : Bool) : Nat := setBitTo x 3 b
def set_spie (x : Nat) (b : Bool) : Nat := setBitTo x 5 b
def set_mpie (x : Nat) (b : Bool) : Nat := setBitTo x 7 b
def set_spp (x : Nat) (b : Bool) : Nat := setBitTo x 8 b
def set_mpp (x : Nat) (v : Nat) : Nat :=
  setBitTo (setBitTo x 11 (v.testBit 0)) 12 (v.testBit 1)

end Mstatus

/-- The CSR backing store: association list from CSR address to raw value,
most recent binding first. -/
def csrGet (l : List (Nat × Nat)) (a : Nat) : Nat := (List.lookup a l).getD 0

/-- Update a CSR cell. -/
def csrSet (l : List (Nat × Nat)) (a v : Nat) : List (Nat × Nat) := (a, v) :: l

/-- Modelled from the spec: the GPR file (`gpr.rs` is not under `src/`) —
32 u64 words; reads of index 0 return 0; writes to index 0 are dropped. -/
structure Gpr where
  regs : Nat → Nat

def Gpr.read (g : Gpr) (idx : Nat) : Nat := if idx = 0 then 0 else g.regs idx

def Gpr.write (g : Gpr) (idx v : Nat) : Gpr :=
  if idx = 0 then g else ⟨fun i => if i = idx then mask64 v else g.regs i⟩

/-- The hart state of `cpu_core.rs` (`CpuCore`), restricted to the fields the
embedded functions touch.  `csr_write_fired` counts the firings of the CSR
file's write side-effect (each address-dispatched `csr_regs.write` call);
`bus_mem` holds the 8-byte physical memory cells the embedded code reads
and writes through the bus. -/
structure CpuCore where
  gpr : Gpr
  csrs : List (Nat × Nat)
  csr_write_fired : Nat
  pc : Nat
  npc : Nat
  cur_priv : PrivilegeLevels
  lr_sc_set : Option Nat
  cpu_state : CpuState
  bus_mem : List (Nat × Nat)

namespace CpuCore

/-- Direct access to a shared CSR cell (the Rust `.get()` on the register
cell): no side effect fires. -/
def csr_cell_get (s : CpuCore) (a : Nat) : Nat := csrGet s.csrs a

/-- Direct update of a shared CSR cell (the Rust `.set(v)` on the register
cell): no side effect fires. -/
def csr_cell_set (s : CpuCore) (a v : Nat) : CpuCore :=
  { s with csrs := csrSet s.csrs a v }

/-- Modelled from the spec: the CSR file's address-dispatched read
(`csr_regs.rs` is not under `src/`): materialize the current value. -/
def csr_read (s : CpuCore) (a : Nat) : Nat := csrGet s.csrs a

/-- Modelled from the spec: the CSR file's address-dispatched write
(`csr_regs.rs` is not under `src/`): apply the masked write
`new = (old & ~mask) | (input & mask)` and fire the write side-effect
(counted in `csr_write_fired`).  The per-address write mask is taken as
all-ones, which the spec leaves unspecified per CSR. -/
def csr_write (s : CpuCore) (a v : Nat) : CpuCore :=
  { s with csrs := csrSet s.csrs a (mask64 v),
           csr_write_fired := s.csr_write_fired + 1 }

/-- `read_raw_mask` of `csr_regs.rs` (modelled from the spec): raw masked
read, bypassing side effects. -/
def read_raw_mask (s : CpuCore) (a m : Nat) : Nat := csrGet s.csrs a &&& m

/-- `write_raw_mask` of `csr_regs.rs` (modelled from the spec): raw masked
write `new = (old & ~mask) | (v & mask)`, bypassing side effects. -/
def write_raw_mask (s : CpuCore) (a v m : Nat) : CpuCore :=
  { s with csrs :=
      csrSet s.csrs a ((csrGet s.csrs a &&& not64 m) ||| (v &&& m)) }

/-- `CpuCore::halt`: reads `a0` for the pass/fail log line, then stops the
hart unconditionally. -/
def halt (s : CpuCore) : CpuCore := { s with cpu_state := CpuState.Stop }

/-- `CpuCore::lr_sc_reservation_set` (the reservation object itself,
`inst_rv64a.rs`, is modelled from the spec: a single optional address). -/
def lr_sc_reservation_set (s : CpuCore) (addr : Nat) : CpuCore :=
  { s with lr_sc_set := some addr }

/-- `CpuCore::lr_sc_reservation_check_and_clear` (modelled from the spec:
checked and cleared by SC; returns whether the reservation matched). -/
def lr_sc_reservation_check_and_clear (s : CpuCore) (addr : Nat) :
    Bool × CpuCore :=
  (decide (s.lr_sc_set = some addr), { s with lr_sc_set := none })

/-- `CpuCore::lr_sc_reservation_clear`. -/
def lr_sc_reservation_clear (s : CpuCore) : CpuCore :=
  { s with lr_sc_set := none }

end CpuCore

/-- Modelled from the spec: `stvec`/`mtvec` trap-pc computation — bits[1:0]
select the mode: 0 (direct) gives the base; 1 (vectored, interrupts only)
gives base + 4·cause.  Exceptions always use direct. -/
def get_trap_pc (xtvec : Nat) (t : TrapType) : Nat :=
  let base := xtvec &&& not64 3
  if (xtvec &&& 3) == 1 && t.is_interrupt then
    mask64 (base + 4 * t.get_exception_num)
  else base

/-- Modelled from the spec: `XipIn::get_priority_interupt` — within a layer
pick the highest-priority pending bit per the architectural order
MEI, MSI, MTI, SEI, SSI, STI. -/
def get_priority_interupt (pending : Nat) : TrapType :=
  if pending.testBit 11 then .MachineExternalInterrupt
  else if pending.testBit 3 then .MachineSoftInterrupt
  else if pending.testBit 7 then .MachineTimerInterrupt
  else if pending.testBit 9 then .SupervisorExternalInterrupt
  else if pending.testBit 1 then .SupervisorSoftInterrupt
  else .SupervisorTimerInterrupt

namespace CpuCore

/-- `CpuCore::handle_exceptions` of `cpu_core.rs`, embedded statement by
statement. -/
def handle_exceptions (s : CpuCore) (trap_type : TrapType) : CpuCore :=
  let medeleg := csrGet s.csrs CSR_MEDELEG
  let mstatus := csrGet s.csrs CSR_MSTATUS
  let has_exception := (medeleg &&& (1 <<< trap_type.get_exception_num)) != 0
  let trap_to_s_enable := s.cur_priv.le .Supervisor
  let tval := trap_type.get_tval
  let cause := trap_type.idx
  if has_exception && trap_to_s_enable then
    let m1 := Mstatus.set_spp mstatus (!decide (s.cur_priv = .User))
    let m2 := Mstatus.set_spie m1 (Mstatus.sie m1)
    let m3 := Mstatus.set_sie m2 false
    let s := s.csr_cell_set CSR_MSTATUS m3
    let s := s.csr_cell_set CSR_SEPC s.pc
    let s := s.csr_cell_set CSR_SCAUSE cause
    let s := s.csr_cell_set CSR_STVAL tval
    let stvec := csrGet s.csrs CSR_STVEC
    { s with npc := get_trap_pc stvec trap_type,
             cur_priv := .Supervisor }
  else
    let m1 := Mstatus.set_mpie mstatus (Mstatus.mie mstatus)
    let m2 := Mstatus.set_mie m1 false
    let m3 := Mstatus.set_mpp m2 s.cur_priv.toNat
    let s := s.csr_cell_set CSR_MSTATUS m3
    let s := s.csr_cell_set CSR_MEPC s.pc
    let s := s.csr_cell_set CSR_MCAUSE cause
    let s := s.csr_cell_set CSR_MTVAL tval
    let mtvec := csrGet s.csrs CSR_MTVEC
    { s with npc := get_trap_pc mtvec trap_type,
             cur_priv := .Machine }

/-- `CpuCore::handle_interrupt` of `cpu_core.rs`, embedded statement by
statement. -/
def handle_interrupt (s : CpuCore) : CpuCore :=
  let xie := csrGet s.csrs CSR_MIE
  let xip := csrGet s.csrs CSR_MIP
  let mip_mie_val := xie &&& xip
  if mip_mie_val == 0 then s
  else
    let mstatus := csrGet s.csrs CSR_MSTATUS
    let mideleg := csrGet s.csrs CSR_MIDELEG
    let m_a1 := Mstatus.mie mstatus && decide (s.cur_priv = .Machine)
    let m_a2 := s.cur_priv.lt .Machine
    let int_to_m_enable := m_a1 || m_a2
    let int_to_m_peding := mip_mie_val &&& not64 mideleg
    let s_a1 := Mstatus.sie mstatus && decide (s.cur_priv = .Supervisor)
    let s_a2 := s.cur_priv.lt .Supervisor
    let int_to_s_enable := s_a1 || s_a2
    let int_to_s_peding := mip_mie_val &&& mideleg
    if int_to_m_enable && (int_to_m_peding != 0) then
      let cause := get_priority_interupt int_to_m_peding
      let m1 := Mstatus.set_mpie mstatus (Mstatus.mie mstatus)
      let m2 := Mstatus.set_mpp m1 s.cur_priv.toNat
      let m3 := Mstatus.set_mie m2 false
      let s := s.csr_cell_set CSR_MSTATUS m3
      let s := s.csr_cell_set CSR_MEPC s.npc
      let s := s.csr_cell_set CSR_MCAUSE cause.idx
      let mtvec := csrGet s.csrs CSR_MTVEC
      { s with npc := get_trap_pc mtvec cause,
               cur_priv := .Machine }
    else if int_to_s_enable && (int_to_s_peding != 0) then
      let cause := get_priority_interupt int_to_s_peding
      let m1 := Mstatus.set_spp mstatus (!decide (s.cur_priv = .User))
      let m2 := Mstatus.set_spie m1 (Mstatus.sie m1)
      let m3 := Mstatus.set_sie m2 false
      let s := s.csr_cell_set CSR_MSTATUS m3
      let s := s.csr_cell_set CSR_SEPC s.npc
      let s := s.csr_cell_set CSR_SCAUSE cause.idx
      let stvec := csrGet s.csrs CSR_STVEC
      { s with npc := get_trap_pc stvec cause,
               cur_priv := .Supervisor }
    else s

end CpuCore

/-- Modelled from the spec: the CSR-instruction format fields of
`parse_format_csr` (`inst_base.rs` is not under `src/`): the CSR address in
bits 31:20, rs1/zimm in bits 19:15, rd in bits 11:7. -/
structure FormatCSR where
  csr : Nat
  rs1 : Nat
  rd : Nat

/-- Modelled from the spec: `parse_format_csr` of `inst_base.rs`. -/
def parse_format_csr (inst : Nat) : FormatCSR :=
  { csr := (inst >>> 20) &&& 0xfff
    rs1 := (inst >>> 15) &&& 0x1f
    rd := (inst >>> 7) &&& 0x1f }

/-! The `INSTRUCTIONS_Z` handlers of `inst_rv64z.rs`, embedded one by one.
Each has the Rust handler signature `(cpu, inst, pc) -> Result<(), TrapType>`,
embedded as `CpuCore -> Nat -> Nat -> Except TrapType CpuCore`. -/

/-- The `EBREAK` handler: `cpu.halt(); Ok(())`. -/
def inst_ebreak (cpu : CpuCore) (inst pc : Nat) : Except TrapType CpuCore :=
  Except.ok cpu.halt

/-- The `ECALL` handler: `Err(TrapType::EnvironmentCallFromMMode)`,
unconditionally. -/
def inst_ecall (cpu : CpuCore) (inst pc : Nat) : Except TrapType CpuCore :=
  Except.error TrapType.EnvironmentCallFromMMode

/-- The `MRET` handler. -/
def inst_mret (cpu : CpuCore) (inst pc : Nat) : Except TrapType CpuCore :=
  let mstatus_val := cpu.read_raw_mask CSR_MSTATUS MASK_ALL
  let mpie := get_field mstatus_val MSTATUS_MPIE
  let mstatus_val1 := set_field mstatus_val MSTATUS_MIE mpie
  let mstatus_val2 := set_field mstatus_val1 MSTATUS_MPP 0
  let mstatus_val3 := set_field mstatus_val2 MSTATUS_MPIE 1
  let cpu := cpu.write_raw_mask CSR_MSTATUS mstatus_val3 MASK_ALL
  let mepc_val := cpu.read_raw_mask CSR_MEPC MASK_ALL
  Except.ok { cpu with npc := mepc_val }

/-- The `FENCE_I` handler: `Ok(())`. -/
def inst_fence_i (cpu : CpuCore) (inst pc : Nat) : Except TrapType CpuCore :=
  Except.ok cpu

/-- The `FENCE` handler: `Ok(())`. -/
def inst_fence (cpu : CpuCore) (inst pc : Nat) : Except TrapType CpuCore :=
  Except.ok cpu

/-- The `CSRRC` handler:
`t = CSRs[csr]; CSRs[csr] = t & ~x[rs1]; x[rd] = t`. -/
def inst_csrrc (cpu : CpuCore) (inst pc : Nat) : Except TrapType CpuCore :=
  let f := parse_format_csr inst
  let t := cpu.csr_read f.csr
  let rs1_data := cpu.gpr.read f.rs1
  let csr_wb_data := t &&& not64 rs1_data
  let cpu := cpu.csr_write f.csr csr_wb_data
  Except.ok { cpu with gpr := cpu.gpr.write f.rd t }

/-- The `CSRRS` handler:
`t = CSRs[csr]; CSRs[csr] = t | x[rs1]; x[rd] = t`. -/
def inst_csrrs (cpu : CpuCore) (inst pc : Nat) : Except TrapType CpuCore :=
  let f := parse_format_csr inst
  let t := cpu.csr_read f.csr
  let rs1_data := cpu.gpr.read f.rs1
  let csr_wb_data := t ||| rs1_data
  let cpu := cpu.csr_write f.csr csr_wb_data
  Except.ok { cpu with gpr := cpu.gpr.write f.rd t }

/-- The `CSRRW` handler:
`t = CSRs[csr]; CSRs[csr] = x[rs1]; x[rd] = t`. -/
def inst_csrrw (cpu : CpuCore) (inst pc : Nat) : Except TrapType CpuCore :=
  let f := parse_format_csr inst
  let t := cpu.csr_read f.csr
  let rs1_data := cpu.gpr.read f.rs1
  let csr_wb_data := rs1_data
  let cpu := cpu.csr_write f.csr csr_wb_data
  Except.ok { cpu with gpr := cpu.gpr.write f.rd t }

/-- The `CSRRCI` handler:
`t = CSRs[csr]; CSRs[csr] = t & ~zimm; x[rd] = t`. -/
def inst_csrrci (cpu : CpuCore) (inst pc : Nat) : Except TrapType CpuCore :=
  let f := parse_format_csr inst
  let t := cpu.csr_read f.csr
  let zimm := f.rs1
  let csr_wb_data := t &&& not64 zimm
  let cpu := cpu.csr_write f.csr csr_wb_data
  Except.ok { cpu with gpr := cpu.gpr.write f.rd t }

/-- The `CSRRSI` handler:
`t = CSRs[csr]; CSRs[csr] = t | zimm; x[rd] = t`. -/
def inst_csrrsi (cpu : CpuCore) (inst pc : Nat) : Except TrapType CpuCore :=
  let f := parse_format_csr inst
  let t := cpu.csr_read f.csr
  let zimm := f.rs1
  let csr_wb_data := t ||| zimm
  let cpu := cpu.csr_write f.csr csr_wb_data
  Except.ok { cpu with gpr := cpu.gpr.write f.rd t }

/-- The `CSRRWI` handler:
`x[rd] = CSRs[csr]; CSRs[csr] = zimm`. -/
def inst_csrrwi (cpu : CpuCore) (inst pc : Nat) : Except TrapType CpuCore :=
  let f := parse_format_csr inst
  let t := cpu.csr_read f.csr
  let zimm := f.rs1
  let csr_wb_data := zimm
  let cpu := cpu.csr_write f.csr csr_wb_data
  Except.ok { cpu with gpr := cpu.gpr.write f.rd t }

/-! The `tohost` poll. -/

/-- Modelled from the spec: a bus read of an 8-byte cell at a physical
address (`bus.rs` is not under `src/`). -/
def busRead (m : List (Nat × Nat)) (addr : Nat) : Nat :=
  (List.lookup addr m).getD 0

/-- Modelled from the spec: a bus write of an 8-byte cell. -/
def busWrite (m : List (Nat × Nat)) (addr v : Nat) : List (Nat × Nat) :=
  (addr, v) :: m

/-- Modelled from the spec: `FesvrCmd` (`inst_base.rs` is not under `src/`) —
a `tohost` value encodes either an exit status `(code << 1) | 1` or a
character-write descriptor. -/
structure FesvrCmd where
  data : Nat

/-- Modelled from the spec: `syscall_device` — `some pass` when the value is
a pass/fail syscall (lowest bit 1), where `pass` means exit code 0. -/
def FesvrCmd.syscall_device (c : FesvrCmd) : Option Bool :=
  if c.data &&& 1 == 1 then some (c.data >>> 1 == 0) else none

/-- Modelled from the spec: the exit code of a pass/fail syscall. -/
def FesvrCmd.exit_code (c : FesvrCmd) : Nat := c.data >>> 1

/-- `CpuCore::check_to_host` of `cpu_core.rs`: read the 8 bytes at
0x8000_1000, clear them, and act on the command. -/
def CpuCore.check_to_host (s : CpuCore) : CpuCore :=
  let data := busRead s.bus_mem 0x80001000
  let s := { s with bus_mem := busWrite s.bus_mem 0x80001000 0 }
  let cmd : FesvrCmd := ⟨data⟩
  match cmd.syscall_device with
  | some pass =>
    if pass then { s with cpu_state := CpuState.Stop }
    else { s with cpu_state := CpuState.Abort }
  | none => s

/-! The execute loop. -/

/-- A device tick (`check_pending_int`'s CLINT/PLIC tick, and the bus
`update`; the device code is not under `src/`).  Modelled from the spec:
a tick touches only device state (here `bus_mem`) and the
interrupt-pending CSR `mip`; it is a parameter of the embedded loop. -/
def TickFun := List (Nat × Nat) → Nat → List (Nat × Nat) × Nat

/-- Apply a device tick to the hart state. -/
def applyTick (tick : TickFun) (s : CpuCore) : CpuCore :=
  let r := tick s.bus_mem (csrGet s.csrs CSR_MIP)
  { s with bus_mem := r.1, csrs := csrSet s.csrs CSR_MIP r.2 }

/-- The register part of `CpuCore::inst_fetch`:
`self.pc = self.npc; self.npc += 4`. -/
def CpuCore.inst_fetch_advance (s : CpuCore) : CpuCore :=
  { s with pc := s.npc, npc := mask64 (s.npc + 4) }

/-- One iteration of `CpuCore::execute` of `cpu_core.rs`, parameterised over
the memory read of the fetch (`fetch_read`, the MMU path), the
decode-and-execute step (`step`, `CpuCore::step`), and the two device ticks
(`check_pending_int` and `bus.update()`).  Statement order follows the
source: cycle increment, fetch, step; on a trap, deliver the exception and
continue; on success, tick, deliver any interrupt, tick, and increment
`instret`. -/
def execute_one (fetch_read : CpuCore → Except TrapType Nat)
    (step : CpuCore → Nat → Except TrapType CpuCore)
    (tick1 tick2 : TickFun) (s : CpuCore) : CpuCore :=
  match s.cpu_state with
  | CpuState.Running =>
    let s0 := s.csr_cell_set CSR_MCYCLE (mask64 (csrGet s.csrs CSR_MCYCLE + 1))
    let s1 := s0.inst_fetch_advance
    let exe_ret : Except TrapType CpuCore :=
      match fetch_read s1 with
      | Except.ok inst_val => step s1 (inst_val % 2 ^ 32)
      | Except.error trap_type => Except.error trap_type
    match exe_ret with
    | Except.error trap_type => s1.handle_exceptions trap_type
    | Except.ok s2 =>
      let s3 := applyTick tick1 s2
      let s4 := s3.handle_interrupt
      let s5 := applyTick tick2 s4
      s5.csr_cell_set CSR_MINSTRET (mask64 (csrGet s5.csrs CSR_MINSTRET + 1))
  | _ => s

/-- Extract the success state of a handler result (the handlers below always
return `ok`; `d` is a default never reached in those uses). -/
def okState (e : Except TrapType CpuCore) (d : CpuCore) : CpuCore :=
  match e with
  | Except.ok s => s
  | Except.error _ => d

/-! Concrete states used to instantiate or refute the claims. -/

/-- A GPR file with all registers zero. -/
def gpr0 : Gpr := ⟨fun _ => 0⟩

/-- A freshly built running hart at the boot pc (all CSRs zero). -/
def baseCore : CpuCore :=
  { gpr := gpr0
    csrs := []
    csr_write_fired := 0
    pc := 0x80000000
    npc := 0x80000004
    cur_priv := PrivilegeLevels.Machine
    lr_sc_set := none
    cpu_state := CpuState.Running
    bus_mem := [] }

/-- A machine-mode hart with `mstatus.MPIE = 1`, `mstatus.MPP = User` and
`mepc = 0x8000_0100`, about to execute MRET. -/
def mretCore : CpuCore :=
  { baseCore with csrs := [(CSR_MSTATUS, 0x80), (CSR_MEPC, 0x80000100)] }

/-- A user-mode hart with `medeleg` bit 8 (environment call from U-mode)
set, about to execute ECALL. -/
def ecallCore : CpuCore :=
  { baseCore with cur_priv := PrivilegeLevels.User
                  csrs := [(CSR_MEDELEG, 0x100)] }

/-- The state after the user-mode ECALL's trap is delivered. -/
def ecallResult : CpuCore :=
  ecallCore.handle_exceptions TrapType.EnvironmentCallFromMMode

/-- A hart whose `mscratch` holds 0x1234, about to execute
`CSRRS x5, mscratch, x0` (encoding 0x340022F3). -/
def csrCore : CpuCore := { baseCore with csrs := [(CSR_MSCRATCH, 0x1234)] }

/-- A hart holding an LR reservation on 0x8000_2000. -/
def resCore : CpuCore := { baseCore with lr_sc_set := some 0x80002000 }

/-- A machine-mode hart with `mstatus.MIE = 1`, the machine timer interrupt
pending and enabled (`mip = mie = MTIP`), and `mtvec = 0x100` (direct). -/
def intCore : CpuCore :=
  { baseCore with
      csrs := [(CSR_MIE, 0x80), (CSR_MIP, 0x80), (CSR_MTVEC, 0x100),
               (CSR_MSTATUS, 0x8)] }

/-- A device tick that changes nothing. -/
def tick_id : TickFun := fun bm mip => (bm, mip)

/-- A fetch that returns the instruction word 0x13 (a NOP). -/
def fetch_c7 : CpuCore → Except TrapType Nat := fun _ => Except.ok 0x13

/-- A decode-and-execute step that succeeds without touching the hart (the
behaviour of the FENCE handler of `inst_rv64z.rs`). -/
def step_c7 : CpuCore → Nat → Except TrapType CpuCore := fun s _ =>
  Except.ok s

/-- The hart state right after the cycle increment and the fetch register
update of an execute iteration (before the memory read). -/
def c7_fetch_state (s : CpuCore) : CpuCore :=
  (s.csr_cell_set CSR_MCYCLE
    (mask64 (csrGet s.csrs CSR_MCYCLE + 1))).inst_fetch_advance

/-- A user-mode hart with `medeleg` bit 2 (illegal instruction) set and
`stvec = 0x2000`, used to instantiate the delegated-exception claim. -/
def delegCore : CpuCore :=
  { baseCore with cur_priv := PrivilegeLevels.User
                  csrs := [(CSR_MEDELEG, 0x4), (CSR_STVEC, 0x2000)] }

/-! Statement abbreviations for the delegation and interrupt claims. -/

/-- The delegation condition of the claim: current privilege at most
Supervisor and `medeleg[e] = 1`. -/
def c5_delegated (s : CpuCore) (t : TrapType) : Prop :=
  (csrGet s.csrs CSR_MEDELEG).testBit t.get_exception_num = true ∧
  s.cur_priv.le PrivilegeLevels.Supervisor = true

/-- The claimed effect of taking exception `t` into Supervisor mode. -/
def c5_s_pack (s : CpuCore) (t : TrapType) : Prop :=
  csrGet (s.handle_exceptions t).csrs CSR_SEPC = s.pc ∧
  csrGet (s.handle_exceptions t).csrs CSR_SCAUSE = t.get_exception_num ∧
  csrGet (s.handle_exceptions t).csrs CSR_STVAL = t.get_tval ∧
  Mstatus.spp (csrGet (s.handle_exceptions t).csrs CSR_MSTATUS)
    = !decide (s.cur_priv = PrivilegeLevels.User) ∧
  Mstatus.spie (csrGet (s.handle_exceptions t).csrs CSR_MSTATUS)
    = Mstatus.sie (csrGet s.csrs CSR_MSTATUS) ∧
  Mstatus.sie (csrGet (s.handle_exceptions t).csrs CSR_MSTATUS) = false ∧
  (s.handle_exceptions t).cur_priv = PrivilegeLevels.Supervisor ∧
  (s.handle_exceptions t).npc = get_trap_pc (csrGet s.csrs CSR_STVEC) t

/-- The claimed effect of taking exception `t` into Machine mode. -/
def c5_m_pack (s : CpuCore) (t : TrapType) : Prop :=
  csrGet (s.handle_exceptions t).csrs CSR_MEPC = s.pc ∧
  csrGet (s.handle_exceptions t).csrs CSR_MCAUSE = t.get_exception_num ∧
  csrGet (s.handle_exceptions t).csrs CSR_MTVAL = t.get_tval ∧
  Mstatus.mpp (csrGet (s.handle_exceptions t).csrs CSR_MSTATUS)
    = s.cur_priv.toNat ∧
  Mstatus.mpie (csrGet (s.handle_exceptions t).csrs CSR_MSTATUS)
    = Mstatus.mie (csrGet s.csrs CSR_MSTATUS) ∧
  Mstatus.mie (csrGet (s.handle_exceptions t).csrs CSR_MSTATUS) = false ∧
  (s.handle_exceptions t).cur_priv = PrivilegeLevels.Machine ∧
  (s.handle_exceptions t).npc = get_trap_pc (csrGet s.csrs CSR_MTVEC) t

/-- The spec's enable rule for an interrupt targeting Machine mode, with a
target-M interrupt pending: `pending & ~mideleg ≠ 0` and (priv < Machine,
or priv = Machine and `mstatus.MIE`). -/
def c6_m_deliverable (s : CpuCore) : Prop :=
  ((csrGet s.csrs CSR_MIE &&& csrGet s.csrs CSR_MIP) &&&
      not64 (csrGet s.csrs CSR_MIDELEG)) ≠ 0 ∧
  (s.cur_priv.lt PrivilegeLevels.Machine = true ∨
    (s.cur_priv = PrivilegeLevels.Machine ∧
      Mstatus.mie (csrGet s.csrs CSR_MSTATUS) = true))

/-- The spec's enable rule for an interrupt targeting Supervisor mode, with
a target-S interrupt pending: `pending & mideleg ≠ 0` and (priv <
Supervisor, or priv = Supervisor and `mstatus.SIE`). -/
def c6_s_deliverable (s : CpuCore) : Prop :=
  ((csrGet s.csrs CSR_MIE &&& csrGet s.csrs CSR_MIP) &&&
      csrGet s.csrs CSR_MIDELEG) ≠ 0 ∧
  (s.cur_priv.lt PrivilegeLevels.Supervisor = true ∨
    (s.cur_priv = PrivilegeLevels.Supervisor ∧
      Mstatus.sie (csrGet s.csrs CSR_MSTATUS) = true))

/-- The claimed effect of delivering the pending target-M interrupt:
Machine trap with `mepc` = `npc` (the next PC). -/
def c6_m_pack (s : CpuCore) : Prop :=
  csrGet (s.handle_interrupt).csrs CSR_MEPC = s.npc ∧
  csrGet (s.handle_interrupt).csrs CSR_MCAUSE
    = (get_priority_interupt
        ((csrGet s.csrs CSR_MIE &&& csrGet s.csrs CSR_MIP) &&&
          not64 (csrGet s.csrs CSR_MIDELEG))).idx ∧
  (s.handle_interrupt).cur_priv = PrivilegeLevels.Machine ∧
  (s.handle_interrupt).npc
    = get_trap_pc (csrGet s.csrs CSR_MTVEC)
        (get_priority_interupt
          ((csrGet s.csrs CSR_MIE &&& csrGet s.csrs CSR_MIP) &&&
            not64 (csrGet s.csrs CSR_MIDELEG))) ∧
  Mstatus.mpie (csrGet (s.handle_interrupt).csrs CSR_MSTATUS)
    = Mstatus.mie (csrGet s.csrs CSR_MSTATUS) ∧
  Mstatus.mie (csrGet (s.handle_interrupt).csrs CSR_MSTATUS) = false ∧
  Mstatus.mpp (csrGet (s.handle_interrupt).csrs CSR_MSTATUS)
    = s.cur_priv.toNat

/-- The claimed effect of delivering the pending target-S interrupt:
Supervisor trap with `sepc` = `npc` (the next PC). -/
def c6_s_pack (s : CpuCore) : Prop :=
  csrGet (s.handle_interrupt).csrs CSR_SEPC = s.npc ∧
  csrGet (s.handle_interrupt).csrs CSR_SCAUSE
    = (get_priority_interupt
        ((csrGet s.csrs CSR_MIE &&& csrGet s.csrs CSR_MIP) &&&
          csrGet s.csrs CSR_MIDELEG)).idx ∧
  (s.handle_interrupt).cur_priv = PrivilegeLevels.Supervisor ∧
  (s.handle_interrupt).npc
    = get_trap_pc (csrGet s.csrs CSR_STVEC)
        (get_priority_interupt
          ((csrGet s.csrs CSR_MIE &&& csrGet s.csrs CSR_MIP) &&&
            csrGet s.csrs CSR_MIDELEG)) ∧
  Mstatus.spie (csrGet (s.handle_interrupt).csrs CSR_MSTATUS)
    = Mstatus.sie (csrGet s.csrs CSR_MSTATUS) ∧
  Mstatus.sie (csrGet (s.handle_interrupt).csrs CSR_MSTATUS) = false ∧
  Mstatus.spp (csrGet (s.handle_interrupt).csrs CSR_MSTATUS)
    = !decide (s.cur_priv = PrivilegeLevels.User)

/-- The amended C7 statement for a successful instruction whose iteration
delivers no interrupt: at the end of the iteration exactly one of
{the handler wrote `npc`, `npc = pc + 4` (as u64)} holds, and `instret`
is exactly one greater than before the iteration. -/
def c7_success_claim (fetch_read : CpuCore → Except TrapType Nat)
    (step : CpuCore → Nat → Except TrapType CpuCore)
    (tick1 tick2 : TickFun) (s s2 : CpuCore) : Prop :=
  ((s2.npc ≠ (c7_fetch_state s).npc ∧
      (execute_one fetch_read step tick1 tick2 s).npc
        ≠ mask64 ((execute_one fetch_read step tick1 tick2 s).pc + 4)) ∨
    (s2.npc = (c7_fetch_state s).npc ∧
      (execute_one fetch_read step tick1 tick2 s).npc
        = mask64 ((execute_one fetch_read step tick1 tick2 s).pc + 4))) ∧
  csrGet (execute_one fetch_read step tick1 tick2 s).csrs CSR_MINSTRET
    = csrGet s.csrs CSR_MINSTRET + 1

/-- The amended C2 statement at `(s, inst, pc)`: each of the four
CSRRS/CSRRC/CSRRSI/CSRRCI handlers with a zero rs1/zimm field still fires
the CSR write side-effect exactly once and writes back the value it read
(leaving the stored value unchanged, and reading the old value into rd);
CSRRW and CSRRWI fire the write as well. -/
def c2_post (s : CpuCore) (inst pc : Nat) : Prop :=
  (okState (inst_csrrs s inst pc) s).csr_write_fired
      = s.csr_write_fired + 1 ∧
  csrGet (okState (inst_csrrs s inst pc) s).csrs (parse_format_csr inst).csr
      = csrGet s.csrs (parse_format_csr inst).csr ∧
  (okState (inst_csrrc s inst pc) s).csr_write_fired
      = s.csr_write_fired + 1 ∧
  csrGet (okState (inst_csrrc s inst pc) s).csrs (parse_format_csr inst).csr
      = csrGet s.csrs (parse_format_csr inst).csr ∧
  (okState (inst_csrrsi s inst pc) s).csr_write_fired
      = s.csr_write_fired + 1 ∧
  csrGet (okState (inst_csrrsi s inst pc) s).csrs (parse_format_csr inst).csr
      = csrGet s.csrs (parse_format_csr inst).csr ∧
  (okState (inst_csrrci s inst pc) s).csr_write_fired
      = s.csr_write_fired + 1 ∧
  csrGet (okState (inst_csrrci s inst pc) s).csrs (parse_format_csr inst).csr
      = csrGet s.csrs (parse_format_csr inst).csr ∧
  (okState (inst_csrrw s inst pc) s).csr_write_fired
      = s.csr_write_fired + 1 ∧
  (okState (inst_csrrwi s inst pc) s).csr_write_fired
      = s.csr_write_fired + 1 ∧
  ((parse_format_csr inst).rd ≠ 0 →
    (okState (inst_csrrs s inst pc) s).gpr.read (parse_format_csr inst).rd
      = csrGet s.csrs (parse_format_csr inst).csr) ∧
  ((parse_format_csr inst).rd ≠ 0 →
    (okState (inst_csrrc s inst pc) s).gpr.read (parse_format_csr inst).rd
      = csrGet s.csrs (parse_format_csr inst).csr) ∧
  ((parse_format_csr inst).rd ≠ 0 →
    (okState (inst_csrrsi s inst pc) s).gpr.read (parse_format_csr inst).rd
      = csrGet s.csrs (parse_format_csr inst).csr) ∧
  ((parse_format_csr inst).rd ≠ 0 →
    (okState (inst_csrrci s inst pc) s).gpr.read (parse_format_csr inst).rd
      = csrGet s.csrs (parse_format_csr inst).csr)

/-! Helper lemmas about the CSR store and the `mstatus` bit accessors. -/

@[simp]
theorem csrGet_csrSet_self (l : List (Nat × Nat)) (a v : Nat) :
    csrGet (csrSet l a v) a = v := by
  simp [csrGet, csrSet, List.lookup]

@[simp]
theorem csrGet_csrSet_ne (l : List (Nat × Nat)) (a b v : Nat) (h : b ≠ a) :
    csrGet (csrSet l a v) b = csrGet l b := by
  simp [csrGet, csrSet, List.lookup, beq_false_of_ne h]

theorem testBit_setBitTo_self (x i : Nat) (b : Bool) (h : i < 64) :
    (setBitTo x i b).testBit i = b := by
  cases b
  · show (x &&& ((2 ^ 64 - 1) ^^^ (1 <<< i))).testBit i = false
    rw [Nat.testBit_and, Nat.testBit_xor, Nat.one_shiftLeft,
      Nat.testBit_two_pow_sub_one, Nat.testBit_two_pow]
    simp [h]
  · show (x ||| (1 <<< i)).testBit i = true
    rw [Nat.testBit_or, Nat.one_shiftLeft, Nat.testBit_two_pow]
    simp

theorem testBit_setBitTo_ne (x i j : Nat) (b : Bool) (hne : j ≠ i)
    (hj : j < 64) : (setBitTo x i b).testBit j = x.testBit j := by
  cases b
  · show (x &&& ((2 ^ 64 - 1) ^^^ (1 <<< i))).testBit j = x.testBit j
    rw [Nat.testBit_and, Nat.testBit_xor, Nat.one_shiftLeft,
      Nat.testBit_two_pow_sub_one, Nat.testBit_two_pow]
    simp [hj, Ne.symm hne]
  · show (x ||| (1 <<< i)).testBit j = x.testBit j
    rw [Nat.testBit_or, Nat.one_shiftLeft, Nat.testBit_two_pow]
    simp [Ne.symm hne]

namespace Mstatus

@[simp] theorem sie_set_spp (x : Nat) (b : Bool) : sie (set_spp x b) = sie x :=
  testBit_setBitTo_ne x 8 1 b (by decide) (by decide)

@[simp] theorem sie_set_spie (x : Nat) (b : Bool) :
    sie (set_spie x b) = sie x :=
  testBit_setBitTo_ne x 5 1 b (by decide) (by decide)

@[simp] theorem sie_set_sie (x : Nat) (b : Bool) : sie (set_sie x b) = b :=
  testBit_setBitTo_self x 1 b (by decide)

@[simp] theorem spie_set_sie (x : Nat) (b : Bool) :
    spie (set_sie x b) = spie x :=
  testBit_setBitTo_ne x 1 5 b (by decide) (by decide)

@[simp] theorem spie_set_spie (x : Nat) (b : Bool) : spie (set_spie x b) = b :=
  testBit_setBitTo_self x 5 b (by decide)

@[simp] theorem spp_set_sie (x : Nat) (b : Bool) : spp (set_sie x b) = spp x :=
  testBit_setBitTo_ne x 1 8 b (by decide) (by decide)

@[simp] theorem spp_set_spie (x : Nat) (b : Bool) :
    spp (set_spie x b) = spp x :=
  testBit_setBitTo_ne x 5 8 b (by decide) (by decide)

@[simp] theorem spp_set_spp (x : Nat) (b : Bool) : spp (set_spp x b) = b :=
  testBit_setBitTo_self x 8 b (by decide)

@[simp] theorem mie_set_mpie (x : Nat) (b : Bool) :
    mie (set_mpie x b) = mie x :=
  testBit_setBitTo_ne x 7 3 b (by decide) (by decide)

@[simp] theorem mie_set_mie (x : Nat) (b : Bool) : mie (set_mie x b) = b :=
  testBit_setBitTo_self x 3 b (by decide)

@[simp] theorem mie_set_mpp (x v : Nat) : mie (set_mpp x v) = mie x := by
  unfold mie set_mpp
  rw [testBit_setBitTo_ne _ 12 3 _ (by decide) (by decide),
    testBit_setBitTo_ne _ 11 3 _ (by decide) (by decide)]

@[simp] theorem mpie_set_mie (x : Nat) (b : Bool) :
    mpie (set_mie x b) = mpie x :=
  testBit_setBitTo_ne x 3 7 b (by decide) (by decide)

@[simp] theorem mpie_set_mpie (x : Nat) (b : Bool) : mpie (set_mpie x b) = b :=
  testBit_setBitTo_self x 7 b (by decide)

@[simp] theorem mpie_set_mpp (x v : Nat) : mpie (set_mpp x v) = mpie x := by
  unfold mpie set_mpp
  rw [testBit_setBitTo_ne _ 12 7 _ (by decide) (by decide),
    testBit_setBitTo_ne _ 11 7 _ (by decide) (by decide)]

@[simp] theorem mpp_set_mie (x : Nat) (b : Bool) : mpp (set_mie x b) = mpp x := by
  unfold mpp set_mie
  rw [testBit_setBitTo_ne _ 3 11 _ (by decide) (by decide),
    testBit_setBitTo_ne _ 3 12 _ (by decide) (by decide)]

/-- Writing a privilege level into MPP and reading it back yields the
level's discriminant. -/
@[simp] theorem mpp_set_mpp_toNat (x : Nat) (p : PrivilegeLevels) :
    mpp (set_mpp x p.toNat) = p.toNat := by
  unfold mpp set_mpp
  rw [testBit_setBitTo_self _ 12 _ (by decide),
    testBit_setBitTo_ne _ 12 11 _ (by decide) (by decide),
    testBit_setBitTo_self _ 11 _ (by decide)]
  cases p <;> decide

end Mstatus

/-! The claims. -/

/-- C1: Executing MRET on the concrete machine-mode state `mretCore`
(`mstatus.MPIE = 1`, `mstatus.MPP = User`, `mepc = 0x8000_0100`) restores
`mstatus.MIE` from MPIE, sets MPIE to 1, resets MPP to User and jumps to
`mepc` — but it leaves the current privilege level at Machine, although the
prior `mstatus.MPP` was User: the privilege switch the claim requires is
missing from the handler. -/
theorem c1_mret_leaves_privilege_unchanged :
    (okState (inst_mret mretCore 0x30200073 0x80000000) baseCore).cur_priv
      = PrivilegeLevels.Machine ∧
    Mstatus.mpp (csrGet mretCore.csrs CSR_MSTATUS)
      = PrivilegeLevels.User.toNat ∧
    (okState (inst_mret mretCore 0x30200073 0x80000000) baseCore).npc
      = 0x80000100 ∧
    Mstatus.mie (csrGet
      (okState (inst_mret mretCore 0x30200073 0x80000000) baseCore).csrs
      CSR_MSTATUS) = true ∧
    Mstatus.mpie (csrGet
      (okState (inst_mret mretCore 0x30200073 0x80000000) baseCore).csrs
      CSR_MSTATUS) = true ∧
    Mstatus.mpp (csrGet
      (okState (inst_mret mretCore 0x30200073 0x80000000) baseCore).csrs
      CSR_MSTATUS) = PrivilegeLevels.User.toNat := by
  decide

/-- C3: On the concrete state `ecallCore` (User mode, `medeleg` bit 8 set),
the ECALL handler raises `EnvironmentCallFromMMode` (cause 11) instead of
an environment call from U-mode (cause 8), so delegation checks `medeleg`
bit 11 and the trap is delivered into Machine mode with `mcause = 11`,
while `scause` and `sepc` stay 0 — not the Supervisor trap with
`scause = 8` the claim requires. -/
theorem c3_user_ecall_misrouted :
    inst_ecall ecallCore 0x73 0x80000000
      = Except.error TrapType.EnvironmentCallFromMMode ∧
    ecallResult.cur_priv = PrivilegeLevels.Machine ∧
    csrGet ecallResult.csrs CSR_MCAUSE = 11 ∧
    csrGet ecallResult.csrs CSR_MEPC = ecallCore.pc ∧
    csrGet ecallResult.csrs CSR_SCAUSE = 0 ∧
    csrGet ecallResult.csrs CSR_SEPC = 0 := by
  refine ⟨rfl, ?_, ?_, ?_, ?_, ?_⟩ <;> decide

/-- C4 counterexample: deliver an illegal-instruction trap on the concrete
state `resCore`, which holds an LR reservation on 0x8000_2000; an SC to
that address executed after the trap, with no new LR, still succeeds —
the trap did not clear the reservation set, contradicting the claim. -/
theorem c4_counterexample_sc_succeeds_after_trap :
    ((resCore.handle_exceptions
        (TrapType.IllegalInstruction 0)).lr_sc_reservation_check_and_clear
      0x80002000).1 = true := by
  decide

/-- C4 amended: trap delivery (synchronous exceptions and interrupts) does
not touch the LR/SC reservation set; an SC executed after a trap succeeds
exactly when its address matches the reservation that was already standing
before the trap.  (The reservation is cleared by the SC itself, not by the
trap.) -/
theorem c4_trap_preserves_reservation (s : CpuCore) (t : TrapType)
    (addr : Nat) :
    (s.handle_exceptions t).lr_sc_set = s.lr_sc_set ∧
    (s.handle_interrupt).lr_sc_set = s.lr_sc_set ∧
    ((s.handle_exceptions t).lr_sc_reservation_check_and_clear addr).1
      = decide (s.lr_sc_set = some addr) := by
  have h1 : (s.handle_exceptions t).lr_sc_set = s.lr_sc_set := by
    unfold CpuCore.handle_exceptions CpuCore.csr_cell_set
    dsimp only
    split <;> rfl
  have h2 : (s.handle_interrupt).lr_sc_set = s.lr_sc_set := by
    unfold CpuCore.handle_interrupt CpuCore.csr_cell_set
    dsimp only
    split
    · rfl
    · split
      · rfl
      · split <;> rfl
  exact ⟨h1, h2, by
    simp [CpuCore.lr_sc_reservation_check_and_clear, h1]⟩

/-- C9: executing EBREAK succeeds for every machine state (whatever `a0`
holds): the handler stops the hart (`cpu_state` becomes Stop), changes
nothing else, and delivers no Breakpoint trap. -/
theorem c9_ebreak_stops_hart (s : CpuCore) (inst pc : Nat) :
    inst_ebreak s inst pc
      = Except.ok { s with cpu_state := CpuState.Stop } := rfl

/-- C10: interrupt delivery is frame-bounded — for every state (whether an
interrupt is delivered or not), `handle_interrupt` leaves `mtval`, `stval`
and the whole GPR file exactly as they were: no trap value is recorded for
interrupts. -/
theorem c10_interrupt_frame_effect (s : CpuCore) :
    csrGet (s.handle_interrupt).csrs CSR_MTVAL = csrGet s.csrs CSR_MTVAL ∧
    csrGet (s.handle_interrupt).csrs CSR_STVAL = csrGet s.csrs CSR_STVAL ∧
    (s.handle_interrupt).gpr = s.gpr := by
  unfold CpuCore.handle_interrupt CpuCore.csr_cell_set
  dsimp only
  split
  · exact ⟨rfl, rfl, rfl⟩
  · split
    · refine ⟨?_, ?_, rfl⟩ <;>
        simp [csrGet_csrSet_ne, CSR_MTVAL, CSR_STVAL, CSR_MSTATUS,
          CSR_MEPC, CSR_MCAUSE]
    · split
      · refine ⟨?_, ?_, rfl⟩ <;>
          simp [csrGet_csrSet_ne, CSR_MTVAL, CSR_STVAL, CSR_MSTATUS,
            CSR_SEPC, CSR_SCAUSE]
      · exact ⟨rfl, rfl, rfl⟩

/-- Reading back the cell a bus write just wrote. -/
theorem busRead_busWrite_self (m : List (Nat × Nat)) (a v : Nat) :
    busRead (busWrite m a v) a = v := by
  simp [busRead, busWrite, List.lookup]

/-- Truncation is the identity on values already in the u64 range. -/
theorem mask64_eq_of_lt {x : Nat} (h : x < 2 ^ 64) : mask64 x = x :=
  Nat.mod_eq_of_lt h

/-- Masking with the complement of zero truncates to 64 bits. -/
theorem land_not64_zero (x : Nat) : x &&& not64 0 = mask64 x := by
  have h : not64 0 = 2 ^ 64 - 1 := by simp [not64]
  rw [h, Nat.and_pow_two_sub_one_eq_mod, mask64]

/-- C8: every `check_to_host` poll reads the 8 bytes at physical address
0x8000_1000 and clears them to 0; when the value read has its lowest bit
set (a pass/fail syscall), the run state becomes Stop if the exit code
(the value shifted right by one) is 0 and Abort otherwise; any other value
leaves the run state alone. -/
theorem c8_check_to_host_clears_and_routes (s : CpuCore) :
    busRead (s.check_to_host).bus_mem 0x80001000 = 0 ∧
    (s.check_to_host).cpu_state =
      (if busRead s.bus_mem 0x80001000 &&& 1 = 1 then
        (if busRead s.bus_mem 0x80001000 >>> 1 = 0 then CpuState.Stop
         else CpuState.Abort)
       else s.cpu_state) := by
  unfold CpuCore.check_to_host FesvrCmd.syscall_device
  dsimp only
  by_cases h1 : busRead s.bus_mem 0x80001000 &&& 1 = 1 <;>
      rw [Nat.and_one_is_mod] at h1
  · by_cases h2 : busRead s.bus_mem 0x80001000 >>> 1 = 0
    · simp [h1, h2, busRead_busWrite_self]
    · simp [h1, h2, busRead_busWrite_self]
  · simp [h1, busRead_busWrite_self]

/-- C2 amended: CSRRS/CSRRC with rs1 = x0 (and CSRRSI/CSRRCI with
zimm = 0) still read the CSR into rd, but they do not skip the CSR write:
the write side-effect fires exactly once, with the value just read written
back, so the stored CSR value is unchanged; CSRRW and CSRRWI always
perform the write. -/
theorem c2_zero_source_csr_write_still_fires (s : CpuCore) (inst pc : Nat)
    (h0 : (parse_format_csr inst).rs1 = 0)
    (hb : csrGet s.csrs (parse_format_csr inst).csr < 2 ^ 64) :
    c2_post s inst pc := by
  unfold c2_post
  refine ⟨?_, ?_, ?_, ?_, ?_, ?_, ?_, ?_, ?_, ?_, fun hrd => ?_,
      fun hrd => ?_, fun hrd => ?_, fun hrd => ?_⟩ <;>
    simp [*, okState, inst_csrrs, inst_csrrc, inst_csrrsi, inst_csrrci,
      inst_csrrw, inst_csrrwi, CpuCore.csr_write, CpuCore.csr_read, h0,
      Gpr.read, Gpr.write, land_not64_zero, mask64_eq_of_lt hb]

/-- Witness for the amended C2 at the concrete state `csrCore` and the
concrete instruction `CSRRS x5, mscratch, x0`. -/
theorem c2_zero_source_witness :
    (parse_format_csr 0x340022F3).rs1 = 0 ∧
    csrGet csrCore.csrs (parse_format_csr 0x340022F3).csr < 2 ^ 64 ∧
    c2_post csrCore 0x340022F3 0x80000000 :=
  ⟨by decide, by decide,
    c2_zero_source_csr_write_still_fires csrCore 0x340022F3 0x80000000
      (by decide) (by decide)⟩

/-- The delegation test of `handle_exceptions`, `medeleg & (1 << e) != 0`,
is the bit test on `medeleg`. -/
theorem bne_zero_and_shiftLeft (x i : Nat) :
    ((x &&& (1 <<< i)) != 0) = x.testBit i := by
  rw [Nat.one_shiftLeft, Nat.and_two_pow]
  cases h : x.testBit i <;> simp [h, Nat.pos_iff_ne_zero]

/-- C5: for every synchronous exception, if the current privilege is at
most Supervisor and the corresponding `medeleg` bit is set, the trap is
taken into Supervisor mode (`sepc` = faulting pc, `scause` = exception
number, `stval` = trap value, SPP = 0 iff the privilege was User,
SPIE = old SIE, SIE = 0, privilege = Supervisor, `npc` = stvec trap pc);
otherwise it is taken into Machine mode with the analogous
mepc/mcause/mtval/MPP/MPIE/MIE/mtvec updates. -/
theorem c5_exception_delegation (s : CpuCore) (t : TrapType)
    (hsync : t.is_interrupt = false) :
    (c5_delegated s t → c5_s_pack s t) ∧
    (¬ c5_delegated s t → c5_m_pack s t) := by
  have hidx : t.idx = t.get_exception_num := by simp [TrapType.idx, hsync]
  constructor
  · rintro ⟨h1, h2⟩
    unfold c5_s_pack CpuCore.handle_exceptions CpuCore.csr_cell_set
    dsimp only
    rw [bne_zero_and_shiftLeft, h1, h2]
    simp only [Bool.and_self, if_true]
    refine ⟨?_, ?_, ?_, ?_, ?_, ?_, ?_, ?_⟩ <;>
      simp [hidx, CSR_MSTATUS, CSR_SEPC, CSR_SCAUSE, CSR_STVAL, CSR_STVEC]
  · intro h
    unfold c5_delegated at h
    unfold c5_m_pack CpuCore.handle_exceptions CpuCore.csr_cell_set
    dsimp only
    rw [bne_zero_and_shiftLeft]
    have hcond : ((csrGet s.csrs CSR_MEDELEG).testBit t.get_exception_num
        && s.cur_priv.le PrivilegeLevels.Supervisor) = false := by
      rcases Bool.eq_false_or_eq_true
          ((csrGet s.csrs CSR_MEDELEG).testBit t.get_exception_num) with
        ht | ht
      · rcases Bool.eq_false_or_eq_true
            (s.cur_priv.le PrivilegeLevels.Supervisor) with hl | hl
        · exact absurd ⟨ht, hl⟩ h
        · simp [hl]
      · simp [ht]
    rw [hcond]
    simp only [Bool.false_eq_true, if_false]
    refine ⟨?_, ?_, ?_, ?_, ?_, ?_, ?_, ?_⟩ <;>
      simp [hidx, CSR_MSTATUS, CSR_MEPC, CSR_MCAUSE, CSR_MTVAL, CSR_MTVEC]

/-- Witness for C5 at the concrete state `delegCore` (User mode, `medeleg`
bit 2 set) and the concrete exception IllegalInstruction(0x55). -/
theorem c5_exception_delegation_witness :
    (TrapType.IllegalInstruction 0x55).is_interrupt = false ∧
    c5_delegated delegCore (TrapType.IllegalInstruction 0x55) ∧
    c5_s_pack delegCore (TrapType.IllegalInstruction 0x55) :=
  ⟨rfl, by unfold c5_delegated; decide,
    (c5_exception_delegation delegCore (TrapType.IllegalInstruction 0x55)
      rfl).1 (by unfold c5_delegated; decide)⟩

/-- C6: with `pending = mip & mie`, an interrupt targeting Machine mode
(`pending & ~mideleg ≠ 0`) is delivered iff the privilege is below Machine
or (the privilege is Machine and `mstatus.MIE = 1`); an interrupt
targeting Supervisor mode analogously with SIE; when both layers are
deliverable the Machine one is taken; a delivered interrupt saves `npc`
(the next PC) in `mepc`/`sepc`; when neither layer is deliverable nothing
changes. -/
theorem c6_interrupt_delivery (s : CpuCore) :
    (c6_m_deliverable s → c6_m_pack s) ∧
    (¬ c6_m_deliverable s → c6_s_deliverable s → c6_s_pack s) ∧
    (¬ c6_m_deliverable s → ¬ c6_s_deliverable s →
      s.handle_interrupt = s) := by
  refine ⟨?_, ?_, ?_⟩
  · rintro ⟨hpend, hen⟩
    have hval : (csrGet s.csrs CSR_MIE &&& csrGet s.csrs CSR_MIP) ≠ 0 :=
      fun h0 => hpend (by rw [h0, Nat.zero_and])
    unfold c6_m_pack CpuCore.handle_interrupt CpuCore.csr_cell_set
    dsimp only
    have hg1 : ((csrGet s.csrs CSR_MIE &&& csrGet s.csrs CSR_MIP) == 0)
        = false := by simp [hval]
    rw [hg1]
    have hg2 : ((Mstatus.mie (csrGet s.csrs CSR_MSTATUS)
          && decide (s.cur_priv = PrivilegeLevels.Machine)
          || s.cur_priv.lt PrivilegeLevels.Machine)
        && ((csrGet s.csrs CSR_MIE &&& csrGet s.csrs CSR_MIP) &&&
            not64 (csrGet s.csrs CSR_MIDELEG) != 0)) = true := by
      rw [Bool.and_eq_true]
      refine ⟨?_, by simp [hpend]⟩
      rcases hen with hlt | ⟨hpm, hmie⟩
      · simp [hlt]
      · simp [hpm, hmie]
    rw [hg2]
    simp only [Bool.false_eq_true, if_false, if_true]
    refine ⟨?_, ?_, ?_, ?_, ?_, ?_, ?_⟩ <;>
      simp [CSR_MSTATUS, CSR_MEPC, CSR_MCAUSE, CSR_MTVEC]
  · rintro hnm ⟨hspend, hsen⟩
    have hval : (csrGet s.csrs CSR_MIE &&& csrGet s.csrs CSR_MIP) ≠ 0 :=
      fun h0 => hspend (by rw [h0, Nat.zero_and])
    unfold c6_s_pack CpuCore.handle_interrupt CpuCore.csr_cell_set
    dsimp only
    have hg1 : ((csrGet s.csrs CSR_MIE &&& csrGet s.csrs CSR_MIP) == 0)
        = false := by simp [hval]
    rw [hg1]
    have hgm : ((Mstatus.mie (csrGet s.csrs CSR_MSTATUS)
          && decide (s.cur_priv = PrivilegeLevels.Machine)
          || s.cur_priv.lt PrivilegeLevels.Machine)
        && ((csrGet s.csrs CSR_MIE &&& csrGet s.csrs CSR_MIP) &&&
            not64 (csrGet s.csrs CSR_MIDELEG) != 0)) = false := by
      by_cases hmp : ((csrGet s.csrs CSR_MIE &&& csrGet s.csrs CSR_MIP) &&&
          not64 (csrGet s.csrs CSR_MIDELEG)) = 0
      · simp [hmp]
      · have hne : ¬ (s.cur_priv.lt PrivilegeLevels.Machine = true ∨
            (s.cur_priv = PrivilegeLevels.Machine ∧
              Mstatus.mie (csrGet s.csrs CSR_MSTATUS) = true)) :=
          fun hen => hnm ⟨hmp, hen⟩
        rcases not_or.mp hne with ⟨hl, hr⟩
        have hl' : s.cur_priv.lt PrivilegeLevels.Machine = false :=
          Bool.not_eq_true _ ▸ hl
        rcases Bool.eq_false_or_eq_true
            (decide (s.cur_priv = PrivilegeLevels.Machine)) with hpm | hpm
        · have hp : s.cur_priv = PrivilegeLevels.Machine :=
            of_decide_eq_true hpm
          rcases Bool.eq_false_or_eq_true
              (Mstatus.mie (csrGet s.csrs CSR_MSTATUS)) with hmie | hmie
          · exact absurd ⟨hp, hmie⟩ hr
          · simp [hpm, hmie, hl']
        · simp [hpm, hl']
    rw [hgm]
    have hg2 : ((Mstatus.sie (csrGet s.csrs CSR_MSTATUS)
          && decide (s.cur_priv = PrivilegeLevels.Supervisor)
          || s.cur_priv.lt PrivilegeLevels.Supervisor)
        && ((csrGet s.csrs CSR_MIE &&& csrGet s.csrs CSR_MIP) &&&
            csrGet s.csrs CSR_MIDELEG != 0)) = true := by
      rw [Bool.and_eq_true]
      refine ⟨?_, by simp [hspend]⟩
      rcases hsen with hlt | ⟨hps, hsie⟩
      · simp [hlt]
      · simp [hps, hsie]
    rw [hg2]
    simp only [Bool.false_eq_true, if_false, if_true]
    refine ⟨?_, ?_, ?_, ?_, ?_, ?_, ?_⟩ <;>
      simp [CSR_MSTATUS, CSR_SEPC, CSR_SCAUSE, CSR_STVEC]
  · intro hnm hns
    unfold CpuCore.handle_interrupt CpuCore.csr_cell_set
    dsimp only
    by_cases hv : (csrGet s.csrs CSR_MIE &&& csrGet s.csrs CSR_MIP) = 0
    · simp [hv]
    · have hg1 : ((csrGet s.csrs CSR_MIE &&& csrGet s.csrs CSR_MIP) == 0)
          = false := by simp [hv]
      rw [hg1]
      have hgm : ((Mstatus.mie (csrGet s.csrs CSR_MSTATUS)
            && decide (s.cur_priv = PrivilegeLevels.Machine)
            || s.cur_priv.lt PrivilegeLevels.Machine)
          && ((csrGet s.csrs CSR_MIE &&& csrGet s.csrs CSR_MIP) &&&
              not64 (csrGet s.csrs CSR_MIDELEG) != 0)) = false := by
        by_cases hmp : ((csrGet s.csrs CSR_MIE &&& csrGet s.csrs CSR_MIP) &&&
            not64 (csrGet s.csrs CSR_MIDELEG)) = 0
        · simp [hmp]
        · have hne : ¬ (s.cur_priv.lt PrivilegeLevels.Machine = true ∨
              (s.cur_priv = PrivilegeLevels.Machine ∧
                Mstatus.mie (csrGet s.csrs CSR_MSTATUS) = true)) :=
            fun hen => hnm ⟨hmp, hen⟩
          rcases not_or.mp hne with ⟨hl, hr⟩
          have hl' : s.cur_priv.lt PrivilegeLevels.Machine = false :=
            Bool.not_eq_true _ ▸ hl
          rcases Bool.eq_false_or_eq_true
              (decide (s.cur_priv = PrivilegeLevels.Machine)) with hpm | hpm
          · have hp : s.cur_priv = PrivilegeLevels.Machine :=
              of_decide_eq_true hpm
            rcases Bool.eq_false_or_eq_true
                (Mstatus.mie (csrGet s.csrs CSR_MSTATUS)) with hmie | hmie
            · exact absurd ⟨hp, hmie⟩ hr
            · simp [hpm, hmie, hl']
          · simp [hpm, hl']
      rw [hgm]
      have hgs : ((Mstatus.sie (csrGet s.csrs CSR_MSTATUS)
            && decide (s.cur_priv = PrivilegeLevels.Supervisor)
            || s.cur_priv.lt PrivilegeLevels.Supervisor)
          && ((csrGet s.csrs CSR_MIE &&& csrGet s.csrs CSR_MIP) &&&
              csrGet s.csrs CSR_MIDELEG != 0)) = false := by
        by_cases hsp : ((csrGet s.csrs CSR_MIE &&& csrGet s.csrs CSR_MIP) &&&
            csrGet s.csrs CSR_MIDELEG) = 0
        · simp [hsp]
        · have hne : ¬ (s.cur_priv.lt PrivilegeLevels.Supervisor = true ∨
              (s.cur_priv = PrivilegeLevels.Supervisor ∧
                Mstatus.sie (csrGet s.csrs CSR_MSTATUS) = true)) :=
            fun hen => hns ⟨hsp, hen⟩
          rcases not_or.mp hne with ⟨hl, hr⟩
          have hl' : s.cur_priv.lt PrivilegeLevels.Supervisor = false :=
            Bool.not_eq_true _ ▸ hl
          rcases Bool.eq_false_or_eq_true
              (decide (s.cur_priv = PrivilegeLevels.Supervisor)) with
            hps | hps
          · have hp : s.cur_priv = PrivilegeLevels.Supervisor :=
              of_decide_eq_true hps
            rcases Bool.eq_false_or_eq_true
                (Mstatus.sie (csrGet s.csrs CSR_MSTATUS)) with hsie | hsie
            · exact absurd ⟨hp, hsie⟩ hr
            · simp [hps, hsie, hl']
          · simp [hps, hl']
      rw [hgs]
      simp

/-- Witness for C6 at the concrete state `intCore` (Machine mode,
`mstatus.MIE = 1`, MTIP pending and enabled, `mideleg = 0`). -/
theorem c6_interrupt_delivery_witness :
    c6_m_deliverable intCore ∧ c6_m_pack intCore :=
  ⟨by unfold c6_m_deliverable; decide,
    (c6_interrupt_delivery intCore).1
      (by unfold c6_m_deliverable; decide)⟩

/-- A device tick leaves the `instret` cell alone (it writes only the bus
memory and `mip`). -/
theorem applyTick_minstret (tick : TickFun) (s : CpuCore) :
    csrGet (applyTick tick s).csrs CSR_MINSTRET
      = csrGet s.csrs CSR_MINSTRET := by
  simp [applyTick, csrGet_csrSet_ne, CSR_MINSTRET, CSR_MIP]

/-- Synchronous trap delivery leaves the `instret` cell alone. -/
theorem handle_exceptions_minstret (s : CpuCore) (t : TrapType) :
    csrGet (s.handle_exceptions t).csrs CSR_MINSTRET
      = csrGet s.csrs CSR_MINSTRET := by
  unfold CpuCore.handle_exceptions CpuCore.csr_cell_set
  dsimp only
  split <;>
    simp [csrGet_csrSet_ne, CSR_MINSTRET, CSR_MSTATUS, CSR_SEPC,
      CSR_SCAUSE, CSR_STVAL, CSR_MEPC, CSR_MCAUSE, CSR_MTVAL]

/-- C7 counterexample: on the concrete running state `intCore`
(MTIP pending and enabled), an iteration whose instruction succeeds
without writing `npc` (the FENCE behaviour, `step_c7`) ends with
`npc = 0x100` (the interrupt trap vector), not `pc + 4 = 0x80000008`:
neither "the handler wrote npc" nor "npc = pc + 4" holds at the end of
the iteration, so the claimed "exactly one" fails (while `instret` still
increments). -/
theorem c7_counterexample_interrupt_overwrites_npc :
    step_c7 (c7_fetch_state intCore) 0x13
      = Except.ok (c7_fetch_state intCore) ∧
    (execute_one fetch_c7 step_c7 tick_id tick_id intCore).pc
      = 0x80000004 ∧
    (execute_one fetch_c7 step_c7 tick_id tick_id intCore).npc = 0x100 ∧
    (execute_one fetch_c7 step_c7 tick_id tick_id intCore).npc
      ≠ mask64
        ((execute_one fetch_c7 step_c7 tick_id tick_id intCore).pc + 4) ∧
    csrGet (execute_one fetch_c7 step_c7 tick_id tick_id intCore).csrs
      CSR_MINSTRET = 1 :=
  ⟨rfl, by decide, by decide, by decide, by decide⟩

/-- C7 amended: in an execute iteration of a running hart whose fetch
succeeds, (a) if the instruction handler succeeds and no interrupt is
delivered at the end of the iteration, then exactly one of {the handler
wrote `npc`, the final `npc` equals `pc + 4`} holds, and `instret` is
exactly one greater than before the iteration (provided the handler
itself leaves pc and the instret cell alone and instret does not wrap);
(b) if the instruction traps, `instret` is not incremented. -/
theorem c7_npc_and_instret (fetch_read : CpuCore → Except TrapType Nat)
    (step : CpuCore → Nat → Except TrapType CpuCore)
    (tick1 tick2 : TickFun) (s : CpuCore) (instv : Nat)
    (hrun : s.cpu_state = CpuState.Running)
    (hfetch : fetch_read (c7_fetch_state s) = Except.ok instv) :
    (∀ s2, step (c7_fetch_state s) (instv % 2 ^ 32) = Except.ok s2 →
      s2.pc = (c7_fetch_state s).pc →
      csrGet s2.csrs CSR_MINSTRET = csrGet s.csrs CSR_MINSTRET →
      (applyTick tick1 s2).handle_interrupt = applyTick tick1 s2 →
      csrGet s.csrs CSR_MINSTRET + 1 < 2 ^ 64 →
      c7_success_claim fetch_read step tick1 tick2 s s2) ∧
    (∀ t, step (c7_fetch_state s) (instv % 2 ^ 32) = Except.error t →
      csrGet (execute_one fetch_read step tick1 tick2 s).csrs CSR_MINSTRET
        = csrGet s.csrs CSR_MINSTRET) := by
  have hfetch' : fetch_read ((s.csr_cell_set CSR_MCYCLE
      (mask64 (csrGet s.csrs CSR_MCYCLE + 1))).inst_fetch_advance)
      = Except.ok instv := hfetch
  constructor
  · intro s2 hstep hpc hinstret hnoint hbound
    have hstep' : step ((s.csr_cell_set CSR_MCYCLE
        (mask64 (csrGet s.csrs CSR_MCYCLE + 1))).inst_fetch_advance)
        (instv % 2 ^ 32) = Except.ok s2 := hstep
    have hexec : execute_one fetch_read step tick1 tick2 s
        = (applyTick tick2
            ((applyTick tick1 s2).handle_interrupt)).csr_cell_set
          CSR_MINSTRET
          (mask64 (csrGet (applyTick tick2
              ((applyTick tick1 s2).handle_interrupt)).csrs
            CSR_MINSTRET + 1)) := by
      unfold execute_one
      rw [hrun]
      dsimp only
      rw [hfetch']
      dsimp only
      rw [hstep']
    unfold c7_success_claim
    rw [hexec, hnoint]
    constructor
    · show (s2.npc ≠ (c7_fetch_state s).npc ∧
          s2.npc ≠ mask64 (s2.pc + 4)) ∨
        (s2.npc = (c7_fetch_state s).npc ∧
          s2.npc = mask64 (s2.pc + 4))
      rw [hpc]
      have hkey : mask64 ((c7_fetch_state s).pc + 4)
          = (c7_fetch_state s).npc := rfl
      rw [hkey]
      by_cases heq : s2.npc = (c7_fetch_state s).npc
      · exact Or.inr ⟨heq, heq⟩
      · exact Or.inl ⟨heq, heq⟩
    · show csrGet (csrSet (applyTick tick2 (applyTick tick1 s2)).csrs
          CSR_MINSTRET
          (mask64 (csrGet (applyTick tick2 (applyTick tick1 s2)).csrs
            CSR_MINSTRET + 1))) CSR_MINSTRET
        = csrGet s.csrs CSR_MINSTRET + 1
      rw [csrGet_csrSet_self, applyTick_minstret, applyTick_minstret,
        hinstret, mask64_eq_of_lt hbound]
  · intro t htrap
    have htrap' : step ((s.csr_cell_set CSR_MCYCLE
        (mask64 (csrGet s.csrs CSR_MCYCLE + 1))).inst_fetch_advance)
        (instv % 2 ^ 32) = Except.error t := htrap
    have hexec : execute_one fetch_read step tick1 tick2 s
        = ((s.csr_cell_set CSR_MCYCLE
            (mask64 (csrGet s.csrs CSR_MCYCLE + 1))).inst_fetch_advance
          ).handle_exceptions t := by
      unfold execute_one
      rw [hrun]
      dsimp only
      rw [hfetch']
      dsimp only
      rw [htrap']
    rw [hexec, handle_exceptions_minstret]
    show csrGet (s.csr_cell_set CSR_MCYCLE
        (mask64 (csrGet s.csrs CSR_MCYCLE + 1))).csrs CSR_MINSTRET
      = csrGet s.csrs CSR_MINSTRET
    simp [CpuCore.csr_cell_set, csrGet_csrSet_ne, CSR_MINSTRET, CSR_MCYCLE]

/-- Witness for the amended C7 at the concrete running state `baseCore`
(no interrupt pending) with the no-op step `step_c7`. -/
theorem c7_npc_and_instret_witness :
    baseCore.cpu_state = CpuState.Running ∧
    fetch_c7 (c7_fetch_state baseCore) = Except.ok 0x13 ∧
    step_c7 (c7_fetch_state baseCore) (0x13 % 2 ^ 32)
      = Except.ok (c7_fetch_state baseCore) ∧
    c7_success_claim fetch_c7 step_c7 tick_id tick_id baseCore
      (c7_fetch_state baseCore) :=
  ⟨rfl, rfl, rfl,
    (c7_npc_and_instret fetch_c7 step_c7 tick_id tick_id baseCore 0x13
        rfl rfl).1
      (c7_fetch_state baseCore) rfl rfl (by decide) rfl (by decide)⟩

/-- C2 counterexample: on the concrete state `csrCore`, executing
`CSRRS x5, mscratch, x0` (rs1 = x0) fires the CSR file's write side-effect
— the handler performs a CSR write even though rs1 is x0, contradicting
the claim that no write side-effect fires. -/
theorem c2_counterexample_csrrs_x0_writes :
    ¬ ((okState (inst_csrrs csrCore 0x340022F3 0x80000000)
          baseCore).csr_write_fired = csrCore.csr_write_fired) := by
  decide

end RV64Core
